import Mathlib

/-!
Verification of the event-driven radio front-panel controller
(`cloudplayer.radio.component` and `cloudplayer.iokit.channel`).

The Python classes are shallowly embedded: each handler becomes a pure
function from its explicit state and inputs (event fields, fresh GPIO
reads, HTTP responses) to the successor state together with the list of
published events / issued requests.  GPIO levels are booleans, Python
floats of the potentiometer are rationals (all values reachable from the
defaults are dyadic, so rational arithmetic is exact there), and Python
runtime failures (`TypeError`, `UnboundLocalError`) are `Except.error`.
-/

namespace Radio

/-- GPIO levels: `true` = HIGH, `false` = LOW. -/
abbrev Level := Bool

/-- Which line a `VALUE_CHANGED` event originated from, as seen by
`RotaryEncoder.__call__`'s identity tests `event.source is self.clk` /
`event.source is self.dt`. -/
inductive Line where
  | clk
  | dt
  | other
deriving DecidableEq, Repr

/-- `RotaryEncoder.__call__` (component.py lines 130-144).  The state is the
instance attribute `last_clk_state`; `freshRead` is the value returned by the
`.get()` call on the line that did not change.  Returns the state after the
call together with the list of published rotation actions.  The source never
assigns `self.last_clk_state` inside `__call__`, so the state component is
returned unchanged on every path. -/
def rotaryCall (last_clk_state : Level) (action : String) (src : Line)
    (value : Level) (freshRead : Level) : Level × List String :=
  if action = "VALUE_CHANGED" then
    match src with
    | .clk =>
      let clk_state := value
      let dt_state := freshRead
      if clk_state ≠ last_clk_state then
        if dt_state = clk_state then (last_clk_state, ["ROTATE_LEFT"])
        else (last_clk_state, ["ROTATE_RIGHT"])
      else (last_clk_state, [])
    | .dt =>
      let clk_state := freshRead
      let dt_state := value
      if clk_state ≠ last_clk_state then
        if dt_state = clk_state then (last_clk_state, ["ROTATE_LEFT"])
        else (last_clk_state, ["ROTATE_RIGHT"])
      else (last_clk_state, [])
    | .other => (last_clk_state, [])
  else (last_clk_state, [])

/-- State of a `Potentiometer` instance: the attributes `value` and `step`
(`step = 1.0 / steps`, with `steps = 32.0` by default). -/
structure PotState where
  value : ℚ
  step : ℚ
deriving DecidableEq, Repr

/-- Python `int()` applied to a real number: truncation toward zero. -/
def pyInt (q : ℚ) : ℤ :=
  if 0 ≤ q then ⌊q⌋ else ⌈q⌉

/-- `Potentiometer.__call__` (component.py lines 159-164): on `ROTATE_LEFT`
the value is bumped up and clamped at `1.0`, on any other action it is
bumped down and clamped at `0.0`; afterwards `VALUE_CHANGED` is published
with `int(self.value * 100)`.  Returns the successor state and the
published integer percentage. -/
def potCall (s : PotState) (action : String) : PotState × ℤ :=
  let v :=
    if action = "ROTATE_LEFT" then min (s.value + s.step) 1
    else max (s.value - s.step) 0
  (⟨v, s.step⟩, pyInt (v * 100))

/-- Folding `Potentiometer.__call__` over a finite sequence of events. -/
def potRun (s : PotState) (actions : List String) : PotState :=
  actions.foldl (fun st a => (potCall st a).1) s

/-- The message dict built inside `SocketServer.write`. -/
structure WSMessage where
  channel : String
  body : ℤ
  method : String
deriving DecidableEq, Repr

/-- `SocketServer.write` (component.py lines 198-206).  `connected` is the
truthiness of `self.ws_connection`; `kw` are the keyword arguments.  The
local variable `message` is assigned only inside the `for` loop of the
connected branch; on the `else` branch the log statement
`app_log.error('message was lost %s' % message)` reads it while it is still
unbound, which in Python raises `UnboundLocalError`.  The model keeps the
local as an `Option` that is `none` until first assignment. -/
def socketWrite (connected : Bool) (kw : List (String × ℤ)) :
    Except String (List WSMessage) :=
  let message : Option WSMessage := none
  if connected then
    Except.ok (kw.map fun cb => ⟨cb.1, cb.2, "PUT"⟩)
  else
    match message with
    | some _ => Except.ok []
    | none => Except.error "UnboundLocalError: local variable message referenced before assignment"

/-- `SocketServer.__call__` (component.py lines 208-211): a
`Potentiometer.VALUE_CHANGED` event is forwarded as `write(volume=value)`;
any other action is ignored. -/
def socketServerCall (connected : Bool) (action : String) (value : ℤ) :
    Except String (List WSMessage) :=
  if action = "VALUE_CHANGED" then socketWrite connected [("volume", value)]
  else Except.ok []

/-- GPIO pin directions / levels as passed to `GPIO.setup`. -/
inductive PinMode where
  | input
  | output
deriving DecidableEq, Repr

/-- State built by `Channel.__init__` (channel.py lines 15-18 and
component.py lines 47-50): calls `GPIO.setup(channel, in_out, **kw)` and
records the channel.  `kw` keeps the keyword arguments that were passed
through (for `Output`: `initial=GPIO.LOW`). -/
structure ChannelState where
  channel : ℕ
  mode : PinMode
  kw : List (String × Level)
deriving DecidableEq, Repr

/-- `Channel.__init__`. -/
def channelInit (channel : ℕ) (in_out : PinMode) (kw : List (String × Level)) :
    ChannelState :=
  ⟨channel, in_out, kw⟩

/-- `Output.__init__` of `cloudplayer.iokit.channel` (lines 48-49): a plain
delegation `super().__init__(channel, GPIO.OUT, initial=GPIO.LOW)`. -/
def iokitOutputInit (channel : ℕ) : ChannelState :=
  channelInit channel .output [("initial", false)]

/-- `Output.__init__` of `cloudplayer.radio.component` (lines 78-79).  Its
body is `self.__init__(channel, GPIO.OUT, initial=GPIO.LOW)`: `self.__init__`
resolves to `Output.__init__` itself, which accepts exactly one positional
argument besides `self`, while the call supplies two.  CPython checks the
arity before entering the body, so the call raises `TypeError` without
recursing further; the fuel argument models the recursion budget that would
apply if the body were ever re-entered. -/
def radioOutputInit : ℕ → ℕ → Except String ChannelState
  | 0, _ => Except.error "RecursionError: maximum recursion depth exceeded"
  | fuel + 1, channel =>
    let positionalGiven := 2
    let positionalExpected := 1
    if positionalGiven = positionalExpected then radioOutputInit fuel channel
    else Except.error "TypeError: __init__ takes 2 positional arguments but 3 were given"

/-- Decoded body of `POST /token` and `GET /token/{id}` responses. -/
structure Token where
  id : String
  claimed : Bool
deriving DecidableEq, Repr

/-- One entry of the `accounts` list in the `GET /user/me` response body. -/
structure Account where
  provider_id : String
  title : String
deriving DecidableEq, Repr

/-- State of a `CloudPlayer` instance.  `login_running` / `token_running`
record whether the coarse `login_callback` (60 s) respectively the fine
`token_callback` (1 s) periodic callbacks exist and are started.
`requests` is the trace of HTTP requests issued through `self.fetch` and
`events` the trace of `(action, value)` pairs published on the bus. -/
structure CPState where
  cookie : Option String
  token : Option Token
  login_running : Bool
  token_running : Bool
  requests : List String
  events : List (String × String)
deriving DecidableEq, Repr

/-- Attribute values set at the top of `CloudPlayer.__init__` (lines
220-225), before the cookie file is consulted. -/
def cpState0 : CPState :=
  ⟨none, none, false, false, [], []⟩

/-- `CloudPlayer.start_login` (lines 253-258): creates and starts the
60-second `login_callback` (and schedules an immediate `create_token` run
on the io-loop; that run is modelled by applying `create_token` when the
loop fires it). -/
def start_login (s : CPState) : CPState :=
  { s with login_running := true }

/-- One successful run of the `CloudPlayer.create_token` coroutine (lines
260-272) whose `POST /token` fetch decodes to `resp`: stops a previously
started `token_callback` if any, records the token, starts a fresh 1-second
`token_callback`, and publishes `AUTH_START` with the login code.  Nothing
in the body touches `login_callback`. -/
def create_token (s : CPState) (resp : Token) : CPState :=
  let s1 := if s.token_running then { s with token_running := false } else s
  let s2 := { s1 with requests := s1.requests ++ ["POST /token"], token := some resp }
  { s2 with
      token_running := true,
      events := s2.events ++ [("AUTH_START", "enter\n" ++ resp.id)] }

/-- The title-selection loop of `CloudPlayer.say_hello` (lines 289-293):
starting from the placeholder, each account whose `provider_id` is
`cloudplayer` and whose `title` is truthy overwrites the title. -/
def titleFor (accounts : List Account) : String :=
  accounts.foldl
    (fun t a => if a.provider_id = "cloudplayer" ∧ a.title ≠ "" then a.title else t)
    "you"

/-- One successful run of `CloudPlayer.say_hello` (lines 285-295) whose
`GET /user/me` fetch decodes to `accounts`: publishes `AUTH_DONE` with the
greeting. -/
def say_hello (s : CPState) (accounts : List Account) : CPState :=
  { s with
      requests := s.requests ++ ["GET /user/me"],
      events := s.events ++ [("AUTH_DONE", "hello\n" ++ titleFor accounts)] }

/-- One successful run of `CloudPlayer.check_token` (lines 274-283) whose
`GET /token/{id}` fetch decodes to `resp`: if the token is claimed, stops
both periodic callbacks and runs `say_hello`; otherwise only logs. -/
def check_token (s : CPState) (resp : Token) (accounts : List Account) : CPState :=
  let s1 :=
    { s with
        requests := s.requests ++ ["GET /token/" ++ ((s.token.map Token.id).getD "")],
        token := some resp }
  if resp.claimed then
    say_hello { s1 with token_running := false, login_running := false } accounts
  else s1

/-- `CloudPlayer.__init__` (lines 219-233) after the attribute setup:
`load` is the outcome of reading `tok_v1.cookie` (`none` when the open or
read raises `IOError`).  A successful read stores the content in
`self.cookie`; `assert self.cookie` then fails on an empty string.  On
`AssertionError`/`IOError` the login flow starts, otherwise `say_hello`
runs directly (`accounts` being the identity the latter fetches). -/
def cloudPlayerInit (load : Option String) (accounts : List Account) : CPState :=
  match load with
  | none => start_login cpState0
  | some c =>
    let s := { cpState0 with cookie := some c }
    if c = "" then start_login s
    else say_hello s accounts

/-- `c.split(';', 1)[0]`: the part of `c` before its first `;` (all of `c`
when there is none). -/
def splitFirst (c : String) : String :=
  String.mk (c.toList.takeWhile (fun ch => ch ≠ ';'))

/-- Python `';'.join(parts)`. -/
def joinSemicolons : List String → String
  | [] => ""
  | [c] => c
  | c :: rest => c ++ ";" ++ joinSemicolons rest

/-- The cookie fold of `CloudPlayer.fetch` (line 246):
`';'.join(c.split(';', 1)[0] for c in cookie_headers)`. -/
def foldCookies (cookie_headers : List String) : String :=
  joinSemicolons (cookie_headers.map splitFirst)

/-- Python dict assignment `headers[k] = v` on a header mapping. -/
def setHeader (headers : List (String × String)) (k v : String) :
    List (String × String) :=
  headers.filter (fun h => h.1 ≠ k) ++ [(k, v)]

/-- Observable outcome of one `CloudPlayer.fetch` call. -/
structure FetchResult where
  requestHeaders : List (String × String)
  cookieAfter : Option String
  persisted : List String
deriving DecidableEq, Repr

/-- Lines 238-240 of `CloudPlayer.fetch`: the header dict actually sent,
i.e. the caller-supplied `headers` with `headers['Cookie'] = self.cookie`
applied when `self.cookie` is truthy. -/
def requestHeadersOf (cookie : Option String)
    (headers : List (String × String)) : List (String × String) :=
  match cookie with
  | some c => if c ≠ "" then setHeader headers "Cookie" c else headers
  | none => headers

/-- `CloudPlayer.fetch` (lines 235-251), cookie handling: the condition is
line 247's truthiness test `if new_cookies:` on the folded header string. -/
def cpFetch (cookie : Option String) (headers : List (String × String))
    (setCookies : List String) : FetchResult :=
  if foldCookies setCookies ≠ "" then
    ⟨requestHeadersOf cookie headers, some (foldCookies setCookies),
      [foldCookies setCookies]⟩
  else ⟨requestHeadersOf cookie headers, cookie, []⟩

/-- `potRun` unfolds one step at a time. -/
theorem potRun_cons (s : PotState) (a : String) (rest : List String) :
    potRun s (a :: rest) = potRun (potCall s a).1 rest := rfl

/-- The value computed by one `Potentiometer.__call__` stays in `[0, 1]`
when the step is nonnegative and the incoming value is in `[0, 1]`. -/
theorem potCall_value_mem (s : PotState) (a : String)
    (hstep : 0 ≤ s.step) (h0 : 0 ≤ s.value) (h1 : s.value ≤ 1) :
    0 ≤ (potCall s a).1.value ∧ (potCall s a).1.value ≤ 1 := by
  unfold potCall
  dsimp only
  split
  · exact ⟨le_min (add_nonneg h0 hstep) zero_le_one, min_le_right _ _⟩
  · exact ⟨le_max_right _ _, max_le (by linarith) zero_le_one⟩

/-- The accounts loop of `say_hello` leaves the title untouched when no
account matches the provider with a truthy title. -/
theorem titleFold_const (accs : List Account) (t : String)
    (h : ∀ a ∈ accs, ¬(a.provider_id = "cloudplayer" ∧ a.title ≠ "")) :
    accs.foldl
      (fun t a => if a.provider_id = "cloudplayer" ∧ a.title ≠ "" then a.title else t)
      t = t := by
  induction accs generalizing t with
  | nil => rfl
  | cons a rest ih =>
    have ha := h a (List.mem_cons_self a rest)
    simp only [List.foldl_cons, if_neg ha]
    exact ih t (fun b hb => h b (List.mem_cons_of_mem a hb))

/-- C1: on a `VALUE_CHANGED` event from the clk or dt input,
`RotaryEncoder.__call__` forms `(clk_level, dt_level)` from the event value
for the changed line and the fresh read of the other line; when `clk_level`
differs from `last_clk_state` exactly one rotation event is published —
`ROTATE_LEFT` iff `dt_level = clk_level`, `ROTATE_RIGHT` otherwise — and
when `clk_level` equals `last_clk_state` (in particular on a lone DT bounce)
nothing is published. -/
theorem rotary_direction_decision (s v f : Level) :
    (rotaryCall s "VALUE_CHANGED" .clk v f).2
      = (if v ≠ s then [if f = v then "ROTATE_LEFT" else "ROTATE_RIGHT"] else []) ∧
    (rotaryCall s "VALUE_CHANGED" .dt v f).2
      = (if f ≠ s then [if v = f then "ROTATE_LEFT" else "ROTATE_RIGHT"] else []) := by
  cases s <;> cases v <;> cases f <;> exact ⟨rfl, rfl⟩

/-- C2 (code evaluated at the failing input): with `last_clk_state = HIGH`,
a clk `VALUE_CHANGED` with value LOW and a HIGH dt read publishes
`ROTATE_RIGHT`, yet the handler leaves `last_clk_state` at HIGH instead of
recording the new clk level; indeed no path of `__call__` ever assigns
`last_clk_state`. -/
theorem rotary_state_never_updated :
    rotaryCall true "VALUE_CHANGED" .clk false true = (true, ["ROTATE_RIGHT"]) ∧
    ∀ (s : Level) (a : String) (src : Line) (v f : Level),
      (rotaryCall s a src v f).1 = s := by
  refine ⟨rfl, ?_⟩
  intro s a src v f
  unfold rotaryCall
  split
  · cases src
    · dsimp only; split
      · split <;> rfl
      · rfl
    · dsimp only; split
      · split <;> rfl
      · rfl
    · rfl
  · rfl

/-- C3 (counterexample): from `value = 14/32`, `step = 1/32`, a
`ROTATE_LEFT` updates the value to `15/32` and publishes
`int(0.46875 * 100) = 46`, while `round(0.46875 * 100) = 47`. -/
theorem pot_int_is_not_round :
    (potCall ⟨14/32, 1/32⟩ "ROTATE_LEFT").2 = 46 ∧
    (potCall ⟨14/32, 1/32⟩ "ROTATE_LEFT").1.value = 15/32 ∧
    round ((15 : ℚ)/32 * 100) = 47 := by
  refine ⟨?_, ?_, ?_⟩
  · norm_num [potCall, pyInt]
  · norm_num [potCall]
  · norm_num [round_eq]

/-- C3 (amended): the integer published by `Potentiometer.__call__` equals
the floor (truncation, the values being nonnegative) of `value * 100` for
the clamped updated value, not its rounding. -/
theorem pot_publishes_truncation (s : PotState) (a : String)
    (hv : 0 ≤ s.value) (hs : 0 ≤ s.step) :
    (potCall s a).2 = ⌊(potCall s a).1.value * 100⌋ := by
  have hpos : 0 ≤ (potCall s a).1.value := by
    unfold potCall
    dsimp only
    split
    · exact le_min (add_nonneg hv hs) zero_le_one
    · exact le_max_right _ _
  have h100 : 0 ≤ (potCall s a).1.value * 100 := by positivity
  show pyInt ((potCall s a).1.value * 100) = _
  rw [pyInt, if_pos h100]

/-- C3 witness. -/
theorem pot_publishes_truncation_witness :
    (potCall ⟨1/2, 1/32⟩ "ROTATE_LEFT").2
      = ⌊(potCall ⟨1/2, 1/32⟩ "ROTATE_LEFT").1.value * 100⌋ :=
  pot_publishes_truncation ⟨1/2, 1/32⟩ "ROTATE_LEFT" (by norm_num) (by norm_num)

/-- C4: for a nonnegative step and an initial value in `[0, 1]`, the
potentiometer value stays in `[0, 1]` after any finite sequence of events
(every intermediate state is `potRun` of some such sequence). -/
theorem pot_value_bounded (s : PotState) (actions : List String)
    (hstep : 0 ≤ s.step) (h0 : 0 ≤ s.value) (h1 : s.value ≤ 1) :
    0 ≤ (potRun s actions).value ∧ (potRun s actions).value ≤ 1 := by
  induction actions generalizing s with
  | nil => exact ⟨h0, h1⟩
  | cons a rest ih =>
    rw [potRun_cons]
    have hb := potCall_value_mem s a hstep h0 h1
    have hstep' : 0 ≤ (potCall s a).1.step := hstep
    exact ih (potCall s a).1 hstep' hb.1 hb.2

/-- C4 witness. -/
theorem pot_value_bounded_witness :
    0 ≤ (potRun ⟨1/2, 1/32⟩ ["ROTATE_LEFT", "ROTATE_RIGHT", "ROTATE_RIGHT"]).value ∧
    (potRun ⟨1/2, 1/32⟩ ["ROTATE_LEFT", "ROTATE_RIGHT", "ROTATE_RIGHT"]).value ≤ 1 :=
  pot_value_bounded ⟨1/2, 1/32⟩ ["ROTATE_LEFT", "ROTATE_RIGHT", "ROTATE_RIGHT"]
    (by norm_num) (by norm_num) (by norm_num)

/-- C5 (code evaluated at the failing input): a `VALUE_CHANGED` event
reaching `SocketServer.__call__` with no client connected raises
`UnboundLocalError` from the logging statement instead of being dropped
quietly, while with a client connected the serialized
`(channel, body, method=PUT)` message is sent. -/
theorem socket_drop_raises :
    socketServerCall false "VALUE_CHANGED" 50
      = Except.error "UnboundLocalError: local variable message referenced before assignment" ∧
    socketServerCall true "VALUE_CHANGED" 50 = Except.ok [⟨"volume", 50, "PUT"⟩] :=
  ⟨rfl, rfl⟩

/-- C6 (counterexample): after `start_login` and a first successful
`create_token`, the coarse `login_callback` is still running, and a second
timer fire runs the handler body in full again, publishing a second
`AUTH_START`. -/
theorem login_timer_survives_token_creation :
    (create_token (start_login cpState0) ⟨"tok1", false⟩).login_running = true ∧
    (create_token (create_token (start_login cpState0) ⟨"tok1", false⟩) ⟨"tok2", false⟩).events
      = [("AUTH_START", "enter\ntok1"), ("AUTH_START", "enter\ntok2")] :=
  ⟨rfl, rfl⟩

/-- C6 (amended): `create_token` never touches the coarse login timer (only
the fine claim-poll timer); the login timer is cancelled exactly when a
`check_token` poll reports the token claimed, at which point both timers
are stopped. -/
theorem login_timer_cancelled_on_claim (s t : CPState) (r q : Token)
    (accs : List Account) (h : q.claimed = true) :
    (create_token s r).login_running = s.login_running ∧
    (check_token t q accs).login_running = false ∧
    (check_token t q accs).token_running = false := by
  refine ⟨?_, ?_, ?_⟩
  · unfold create_token
    dsimp only
    split <;> rfl
  · simp [check_token, say_hello, h]
  · simp [check_token, say_hello, h]

/-- C6 witness. -/
theorem login_timer_cancelled_on_claim_witness :
    (create_token cpState0 ⟨"a", false⟩).login_running = cpState0.login_running ∧
    (check_token cpState0 ⟨"b", true⟩ []).login_running = false ∧
    (check_token cpState0 ⟨"b", true⟩ []).token_running = false :=
  login_timer_cancelled_on_claim cpState0 cpState0 ⟨"a", false⟩ ⟨"b", true⟩ [] rfl

/-- C7 (code evaluated at the failing input): constructing
`cloudplayer.radio.component.Output` on channel 5 raises `TypeError` from
the arity-mismatched `self.__init__` call (for any recursion budget),
whereas the iokit `Output` of the same repository performs the plain parent
delegation the claim describes. -/
theorem radio_output_init_type_error :
    (∀ fuel : ℕ, radioOutputInit (fuel + 1) 5
      = Except.error "TypeError: __init__ takes 2 positional arguments but 3 were given") ∧
    iokitOutputInit 5 = channelInit 5 .output [("initial", false)] :=
  ⟨fun _ => rfl, rfl⟩

/-- C8 (counterexample): a response carrying exactly one `Set-Cookie`
header whose first `;`-segment is empty leaves the stored cookie unchanged
and persists nothing, although the claim requires every response with at
least one `Set-Cookie` header to overwrite and persist the fold. -/
theorem fetch_empty_header_not_stored :
    ([""] : List String).length = 1 ∧
    (cpFetch (some "old") [] [""]).cookieAfter = some "old" ∧
    (cpFetch (some "old") [] [""]).persisted = [] := by
  refine ⟨rfl, ?_, ?_⟩ <;> rfl

/-- C8 (amended): `CloudPlayer.fetch` overwrites and persists the stored
cookie exactly when the fold of the `Set-Cookie` headers (first
`;`-segment of each, joined by `;`) is non-empty, leaves it unchanged when
the fold is empty, and every outbound request carries the current cookie
as a `Cookie` header whenever one is present and non-empty. -/
theorem fetch_cookie_update (cookie : Option String)
    (headers : List (String × String)) (setCookies : List String) :
    (foldCookies setCookies ≠ "" →
      (cpFetch cookie headers setCookies).cookieAfter = some (foldCookies setCookies) ∧
      (cpFetch cookie headers setCookies).persisted = [foldCookies setCookies]) ∧
    (foldCookies setCookies = "" →
      (cpFetch cookie headers setCookies).cookieAfter = cookie ∧
      (cpFetch cookie headers setCookies).persisted = []) ∧
    (∀ c, cookie = some c → c ≠ "" →
      ("Cookie", c) ∈ (cpFetch cookie headers setCookies).requestHeaders) := by
  refine ⟨fun hne => ?_, fun heq => ?_, fun c hc hcne => ?_⟩
  · unfold cpFetch
    rw [if_pos hne]
    exact ⟨rfl, rfl⟩
  · unfold cpFetch
    rw [if_neg (by simp [heq])]
    exact ⟨rfl, rfl⟩
  · have hmem : ("Cookie", c) ∈ setHeader headers "Cookie" c := by
      unfold setHeader
      exact List.mem_append_right _ (List.mem_singleton.mpr rfl)
    have hreq : requestHeadersOf cookie headers = setHeader headers "Cookie" c := by
      subst hc
      unfold requestHeadersOf
      dsimp only
      rw [if_pos hcne]
    unfold cpFetch
    split <;> simpa [hreq] using hmem

/-- C8 witness. -/
theorem fetch_cookie_update_witness :
    (cpFetch (some "sid=1") [] ["a=b; Path=/", "c=d"]).cookieAfter = some "a=b;c=d" ∧
    (cpFetch (some "sid=1") [] ["a=b; Path=/", "c=d"]).persisted = ["a=b;c=d"] ∧
    ("Cookie", "sid=1") ∈ (cpFetch (some "sid=1") [] ["a=b; Path=/", "c=d"]).requestHeaders := by
  have h := fetch_cookie_update (some "sid=1") [] ["a=b; Path=/", "c=d"]
  have hfold : foldCookies ["a=b; Path=/", "c=d"] = "a=b;c=d" := rfl
  refine ⟨?_, ?_, h.2.2 "sid=1" rfl (by decide)⟩
  · rw [(h.1 (by rw [hfold]; decide)).1, hfold]
  · rw [(h.1 (by rw [hfold]; decide)).2, hfold]

/-- C9: when the persisted cookie loads as a non-empty string, the
constructed `CloudPlayer` issues only the identity fetch — no `POST /token`
and no login timer — and publishes `AUTH_DONE` with a greeting built from
the selected account title, which falls back to the placeholder `you` when
no `cloudplayer` account with a truthy title exists. -/
theorem cookie_skips_login (c : String) (accounts : List Account) (h : c ≠ "") :
    (cloudPlayerInit (some c) accounts).requests = ["GET /user/me"] ∧
    "POST /token" ∉ (cloudPlayerInit (some c) accounts).requests ∧
    (cloudPlayerInit (some c) accounts).login_running = false ∧
    (cloudPlayerInit (some c) accounts).token_running = false ∧
    (cloudPlayerInit (some c) accounts).events
      = [("AUTH_DONE", "hello\n" ++ titleFor accounts)] ∧
    ((∀ a ∈ accounts, ¬(a.provider_id = "cloudplayer" ∧ a.title ≠ "")) →
      titleFor accounts = "you") := by
  have hinit : cloudPlayerInit (some c) accounts
      = say_hello { cpState0 with cookie := some c } accounts := by
    unfold cloudPlayerInit
    dsimp only
    rw [if_neg h]
  rw [hinit]
  have hreq : (say_hello { cpState0 with cookie := some c } accounts).requests
      = ["GET /user/me"] := rfl
  exact ⟨hreq, by rw [hreq]; decide, rfl, rfl, rfl,
    fun hnone => titleFold_const accounts "you" hnone⟩

/-- C9 witness. -/
theorem cookie_skips_login_witness :
    (cloudPlayerInit (some "tok") [⟨"youtube", "yt"⟩]).requests = ["GET /user/me"] ∧
    (cloudPlayerInit (some "tok") [⟨"youtube", "yt"⟩]).login_running = false ∧
    titleFor [⟨"youtube", "yt"⟩] = "you" := by
  have h := cookie_skips_login "tok" [⟨"youtube", "yt"⟩] (by decide)
  exact ⟨h.1, h.2.2.1, h.2.2.2.2.2 (by decide)⟩

/-- C10: `Potentiometer.__call__` has no action guard besides the
`ROTATE_LEFT` test — any event with any other action takes the `else`
branch, decrements with clamping at `0.0`, and publishes the percentage. -/
theorem pot_other_actions_decrement (s : PotState) (a : String)
    (h : a ≠ "ROTATE_LEFT") :
    potCall s a = (⟨max (s.value - s.step) 0, s.step⟩,
      pyInt (max (s.value - s.step) 0 * 100)) := by
  unfold potCall
  rw [if_neg h]

/-- C10 witness. -/
theorem pot_other_actions_decrement_witness :
    potCall ⟨1/2, 1/32⟩ "AUTH_DONE" = (⟨max ((1:ℚ)/2 - 1/32) 0, 1/32⟩,
      pyInt (max ((1:ℚ)/2 - 1/32) 0 * 100)) :=
  pot_other_actions_decrement ⟨1/2, 1/32⟩ "AUTH_DONE" (by decide)

end Radio



